import Mathlib

/-
Shallow embedding of the mhale/smtpd SMTP server (smtpd.go).

The per-connection command loop of session.serve is modelled as a function
over a finite transcript of read events (lines and read errors).  Machine
strings are Lean strings restricted to ASCII; byte lengths coincide with
character counts on the inputs considered.  The TLS handshake outcome is
supplied by an oracle list carried in the session state, since the
cryptographic handshake itself is outside the model.
-/

set_option maxRecDepth 10000

namespace Smtpd

/-- ASCII model of the whitespace set used by strings.TrimSpace: space, tab,
newline, vertical tab, form feed, carriage return. -/
def goIsSpace (c : Char) : Bool :=
  c = ' ' || c = '\t' || c = '\n' || c = Char.ofNat 11 || c = Char.ofNat 12 || c = '\r'

/-- strings.TrimSpace on a character list: drop whitespace from both ends. -/
def trimSpaceL (cs : List Char) : List Char :=
  ((cs.dropWhile goIsSpace).reverse.dropWhile goIsSpace).reverse

/-- strings.TrimSpace on strings (ASCII model). -/
def trimSpace (s : String) : String :=
  String.mk (trimSpaceL s.data)

/-- session.parseLine: split at the first space; the prefix uppercased is the
verb, the remainder trimmed is the argument string. -/
def parseLine (line : String) : String × String :=
  match line.data.span (fun c => c != ' ') with
  | (v, []) => (String.mk (v.map Char.toUpper), "")
  | (v, _ :: rest) => (String.mk (v.map Char.toUpper), String.mk (trimSpaceL rest))

/-- Case-insensitive prefix test, modelling character classes such as
[Ff][Rr][Oo][Mm] in the regular expressions (literal punctuation is
unchanged by toLower). -/
def startsWithCI : List Char → List Char → Bool
  | [], _ => true
  | _ :: _, [] => false
  | p :: ps, c :: cs => p.toLower == c.toLower && startsWithCI ps cs

/-- Split a list at its LAST occurrence of g: some (before, after) with
before ++ [g] ++ after = cs and g not occurring in after. -/
def splitAtLast (g : Char) (cs : List Char) : Option (List Char × List Char) :=
  match cs.reverse.span (fun c => c != g) with
  | (_, []) => none
  | (aft, _ :: befrev) => some (befrev.reverse, aft.reverse)

/-- Result of mailFromRE.FindStringSubmatch: submatch 1 (the reverse-path),
whether submatch 2 (the parameter group) participated, and submatch 3 (the
text after the whitespace). -/
structure FromMatch where
  cap1 : List Char
  hasParams : Bool
  cap3 : List Char
deriving DecidableEq, Repr

/-- The RE2 Perl class for whitespace: tab, newline, form feed, carriage
return, space. -/
def reIsSpace (c : Char) : Bool :=
  c = '\t' || c = '\n' || c = Char.ofNat 12 || c = '\r' || c = ' '

/-- Leftmost viable start of mailFromRE: the first position where "from:<"
matches case-insensitively with a closing angle bracket somewhere after it;
returns the remainder after the matched "from:<". -/
def findFromTail : List Char → Option (List Char)
  | [] => none
  | c :: cs =>
    if startsWithCI "from:<".data (c :: cs) && ((c :: cs).drop 6).contains '>' then
      some ((c :: cs).drop 6)
    else findFromTail cs

/-- Model of mailFromRE.FindStringSubmatch on the newline-free strings
produced by readLine.  The greedy first capture extends to the last closing
angle bracket; the optional parameter group participates exactly when a
whitespace character follows it. -/
def mailFromMatch (args : List Char) : Option FromMatch :=
  match findFromTail args with
  | none => none
  | some tail =>
    match splitAtLast '>' tail with
    | none => none
    | some (cap1, aft) =>
      match aft with
      | [] => some ⟨cap1, false, []⟩
      | c :: rest => if reIsSpace c then some ⟨cap1, true, rest⟩ else some ⟨cap1, false, []⟩

/-- Leftmost viable start of rcptToRE: the first position where "to:<"
matches case-insensitively and a closing angle bracket follows with at
least one captured character before it. -/
def findToTail : List Char → Option (List Char)
  | [] => none
  | c :: cs =>
    if startsWithCI "to:<".data (c :: cs) && (((c :: cs).drop 4).drop 1).contains '>' then
      some ((c :: cs).drop 4)
    else findToTail cs

/-- Model of rcptToRE.FindStringSubmatch: submatch 1, the non-empty greedy
capture up to the last closing angle bracket. -/
def rcptToMatch (args : List Char) : Option (List Char) :=
  match findToTail args with
  | none => none
  | some tail =>
    match splitAtLast '>' tail with
    | none => none
    | some (cap, _) => some cap

/-- Leftmost viable start of mailSizeRE: first case-insensitive "size="
followed by at least one digit; returns the remainder after "size=". -/
def findSizeTail : List Char → Option (List Char)
  | [] => none
  | c :: cs =>
    if startsWithCI "size=".data (c :: cs) &&
        (match ((c :: cs).drop 5).head? with | some d => d.isDigit | none => false) then
      some ((c :: cs).drop 5)
    else findSizeTail cs

/-- Model of mailSizeRE.FindStringSubmatch: submatch 1, the maximal digit
run after the equals sign. -/
def mailSizeMatch (cs : List Char) : Option (List Char) :=
  (findSizeTail cs).map (fun t => t.takeWhile Char.isDigit)

/-- Numeric value of a digit string. -/
def digitsVal (cs : List Char) : Nat :=
  cs.foldl (fun a c => a * 10 + (c.toNat - 48)) 0

/-- strconv.Atoi restricted to the digit-only strings produced by
mailSizeMatch: the value, or none on 64-bit signed overflow (ErrRange). -/
def goAtoi (cs : List Char) : Option Int :=
  if cs.isEmpty then none
  else if cs.all Char.isDigit then
    if digitsVal cs ≤ 9223372036854775807 then some (digitsVal cs) else none
  else none

/-- Classification of a failed read, as distinguished by session.serve:
a net.Error reporting a timeout, another net.Error, or a non-net error. -/
inductive RErr where
  | timeout
  | net
  | other
deriving DecidableEq, Repr

/-- One read event of a connection transcript: a complete line as delivered
by the buffered reader (terminator included), or a read error. -/
inductive Item where
  | line (raw : String)
  | err (e : RErr)
deriving DecidableEq, Repr

/-- The server configuration and per-connection immutable facts consulted by
session.serve. -/
structure Config where
  hostname : String
  appname : String
  maxSize : Int
  tlsConfigured : Bool
  tlsRequired : Bool
  hasHandler : Bool
  handlerRcpt : Option (String → String → Bool)
  remoteHost : String
  remoteIP : String
  now : String

/-- The mutable session and transaction state of session.serve.  The field
mfrom models the local variable named from; rcpts models the nil-able slice named to; hs is the oracle of TLS handshake outcomes. -/
structure SState where
  remoteName : String
  tls : Bool
  mfrom : String
  gotFrom : Bool
  rcpts : Option (List String)
  buffer : String
  hs : List Bool
deriving DecidableEq, Repr

/-- Observable effects: a line written by writef (without the appended CRLF),
or an invocation of the message handler. -/
inductive Out where
  | reply (s : String)
  | handler (envFrom : String) (envTo : List String) (data : String)
deriving DecidableEq, Repr

/-- Loop control after one command: continue the loop, leave it, or block
waiting for input that the transcript does not contain. -/
inductive Ctl where
  | cont
  | stop
  | blocked
deriving DecidableEq, Repr

/-- How a finite transcript ends: the session returned from serve, or it is
still waiting for more input. -/
inductive EndSt where
  | closed
  | awaiting
deriving DecidableEq, Repr

/-- Result of dispatching one command line. -/
structure StepRes where
  st : SState
  outs : List Out
  ctl : Ctl
  rest : List Item
deriving DecidableEq, Repr

def m530 : String := "530 5.7.0 Must issue a STARTTLS command first"

def mHelo (cfg : Config) (rn : String) : String :=
  "250 " ++ cfg.hostname ++ " greets " ++ rn

def m501From : String := "501 5.5.4 Syntax error in parameters or arguments (invalid FROM parameter)"

def m501Size : String := "501 5.5.4 Syntax error in parameters or arguments (invalid SIZE parameter)"

def m501To : String := "501 5.5.4 Syntax error in parameters or arguments (invalid TO parameter)"

def m250Mail : String := "250 2.1.0 Ok"

def m503Rcpt : String := "503 5.5.1 Bad sequence of commands (MAIL required before RCPT)"

def m452 : String := "452 4.5.3 Too many recipients"

def m250Rcpt : String := "250 2.1.5 Ok"

def m550 : String := "550 5.1.0 Requested action not taken: mailbox unavailable"

def m503Data : String := "503 5.5.1 Bad sequence of commands (MAIL & RCPT required before DATA)"

def m354 : String := "354 Start mail input; end with <CR><LF>.<CR><LF>"

def m451 : String := "451 4.3.0 Requested action aborted: local error in processing"

def m250Queued : String := "250 2.0.0 Ok: queued"

def m250Ok : String := "250 2.0.0 Ok"

def m502 : String := "502 5.5.1 Command not implemented"

def m503Tls : String := "503 5.5.1 Bad sequence of commands (TLS already in use)"

def m220Tls : String := "220 2.0.0 Ready to start TLS"

def m403 : String := "403 4.7.0 TLS handshake failed"

def m500 : String := "500 5.5.2 Syntax error, command unrecognized"

def m421 (cfg : Config) : String :=
  "421 4.4.2 " ++ cfg.hostname ++ " " ++ cfg.appname ++
    " ESMTP Service closing transmission channel after timeout exceeded"

def m221 (cfg : Config) : String :=
  "221 2.0.0 " ++ cfg.hostname ++ " " ++ cfg.appname ++
    " ESMTP Service closing transmission channel"

/-- maxSizeExceededError.Error with the given limit. -/
def m552 (limit : Int) : String :=
  "552 5.3.4 Requested mail action aborted: exceeded storage allocation (" ++
    toString limit ++ ")"

def banner (cfg : Config) : String :=
  "220 " ++ cfg.hostname ++ " " ++ cfg.appname ++ " ESMTP Service ready"

/-- session.makeHeaders: the synthesised Received header; the timestamp is
the now field of the configuration. -/
def makeHeaders (cfg : Config) (st : SState) (tos : List String) : String :=
  "Received: from " ++ st.remoteName ++ " (" ++ cfg.remoteHost ++ " [" ++
    cfg.remoteIP ++ "])\r\n" ++
  "        by " ++ cfg.hostname ++ " (" ++ cfg.appname ++ ") with SMTP\r\n" ++
  "        for <" ++ tos.headD "" ++ ">; " ++ cfg.now ++ "\r\n"

/-- session.makeEHLOResponse. -/
def makeEHLOResponse (cfg : Config) (st : SState) : String :=
  "250-" ++ cfg.hostname ++ " greets " ++ st.remoteName ++ "\r\n" ++
  "250-SIZE " ++ toString cfg.maxSize ++ "\r\n" ++
  (if cfg.tlsConfigured && !st.tls then "250-STARTTLS\r\n" else "") ++
  "250 ENHANCEDSTATUSCODES"

/-- A formatting flag character of the fmt package. -/
def isFmtFlag (c : Char) : Bool :=
  c = '#' || c = '0' || c = '+' || c = '-' || c = ' '

/-- fmt.parsenum, tracking the accumulated value for the overflow guard:
returns (sawDigit, overflowed, rest); on overflow the scan consumes all
remaining input, as in the source. -/
def fmtParsenum : List Char → Nat → Bool → Bool × Bool × List Char
  | [], _, isnum => (isnum, false, [])
  | c :: rest, num, isnum =>
    if c.isDigit then
      if num > 1000000 then (false, true, [])
      else fmtParsenum rest (num * 10 + (c.toNat - 48)) true
    else (isnum, false, c :: rest)

/-- Split at the first closing square bracket. -/
def splitAtRBracket (cs : List Char) : Option (List Char × List Char) :=
  match cs.span (fun c => c != ']') with
  | (_, []) => none
  | (bef, _ :: aft) => some (bef, aft)

/-- fmt.parseArgNumber on input beginning at the opening square bracket:
the number of characters consumed and whether a well-formed one-number index
was read. -/
def fmtParseArgNumber (cs : List Char) : Nat × Bool :=
  if cs.length < 3 then (1, false)
  else
    match splitAtRBracket (cs.drop 1) with
    | none => (1, false)
    | some (bef, _) =>
      match fmtParsenum bef 0 false with
      | (isnum, ovf, rest) => (bef.length + 2, isnum && !ovf && rest.isEmpty)

/-- fmt's argNumber specialised to an empty operand list: skip a bracketed
argument index; any index clears goodArgNum since no index can be valid.
Returns (rest, afterIndex, sawIndex). -/
def fmtArgNumber : List Char → List Char × Bool × Bool
  | [] => ([], false, false)
  | c :: rest =>
    if c = '[' then
      match fmtParseArgNumber (c :: rest) with
      | (wid, ok) => ((c :: rest).drop wid, ok, true)
    else (c :: rest, false, false)

def badWidthStr : List Char := "%!(BADWIDTH)".data

def badPrecStr : List Char := "%!(BADPREC)".data

def noVerbStr : List Char := "%!(NOVERB)".data

/-- The width phase of a percent clause with no operands: a star width emits
the bad-width note and consumes its operand slot; a numeric width after an
argument index clears goodArgNum. Returns (emitted, rest, afterIndex, good). -/
def fmtWidth (cs : List Char) (afterIndex good : Bool) :
    List Char × List Char × Bool × Bool :=
  match cs with
  | '*' :: r => (badWidthStr, r, false, good)
  | _ =>
    match fmtParsenum cs 0 false with
    | (isnum, _, r) => ([], r, afterIndex, good && !(afterIndex && isnum))

/-- The precision phase of a percent clause with no operands: entered only
when the dot is not the last character; a star precision emits the
bad-precision note. Returns (emitted, rest, afterIndex, good). -/
def fmtPrec (cs : List Char) (afterIndex good : Bool) :
    List Char × List Char × Bool × Bool :=
  match cs with
  | '.' :: d :: ds =>
    let good2 := good && !afterIndex
    match fmtArgNumber (d :: ds) with
    | (cs2, after2, saw2) =>
      let good3 := good2 && !saw2
      match cs2 with
      | '*' :: r => (badPrecStr, r, false, good3)
      | r =>
        match fmtParsenum r 0 false with
        | (_, _, r2) => ([], r2, after2, good3)
  | _ => ([], cs, afterIndex, good)

/-- Result of one percent clause: the text emitted, the remaining format, and
whether formatting stops (the no-verb case abandons the rest of the format). -/
structure VerbRes where
  emitted : List Char
  rest : List Char
  stop : Bool

/-- One percent clause of fmt.doPrintf with an empty operand list: skip the
flags, an argument index, the width and the precision, then emit the percent
escape, a bad-index note, a missing-operand note, or the no-verb note. -/
def fmtVerbClause (cs0 : List Char) : VerbRes :=
  let cs1 := cs0.dropWhile isFmtFlag
  match fmtArgNumber cs1 with
  | (cs2, after1, saw1) =>
    let good1 := !saw1
    match fmtWidth cs2 after1 good1 with
    | (em1, cs3, after2, good2) =>
      match fmtPrec cs3 after2 good2 with
      | (em2, cs4, after3, good3) =>
        match (if after3 then (cs4, true, false) else fmtArgNumber cs4) with
        | (cs5, _, saw3) =>
          let good4 := good3 && !saw3
          match cs5 with
          | [] => ⟨em1 ++ em2 ++ noVerbStr, [], true⟩
          | v :: r =>
            if v = '%' then ⟨em1 ++ em2 ++ ['%'], r, false⟩
            else if !good4 then
              ⟨em1 ++ em2 ++ '%' :: '!' :: v :: "(BADINDEX)".data, r, false⟩
            else ⟨em1 ++ em2 ++ '%' :: '!' :: v :: "(MISSING)".data, r, false⟩

/-- The scanning loop of fmt.doPrintf with an empty operand list: literal
characters are copied and each percent clause is rewritten. Every iteration
consumes at least one character, so fuel equal to the input length suffices. -/
def fmtAux : Nat → List Char → List Char
  | 0, _ => []
  | _ + 1, [] => []
  | fuel + 1, c :: rest =>
    if c = '%' then
      let r := fmtVerbClause rest
      if r.stop then r.emitted else r.emitted ++ fmtAux fuel r.rest
    else c :: fmtAux fuel rest

/-- fmt.Fprintf applied to a format string with no operands, which is what
session.writef does to the EHLO response (smtpd.go lines 220 and 392): the
response text, remote name included, is the format string.  Every other
writef call in session.serve passes a percent-free literal format with
matching operands (or a pre-formatted percent-free message), so only the
EHLO reply needs this interpretation. -/
def fmtNoOperands (s : String) : String :=
  String.mk (fmtAux s.data.length s.data)

/-- Whether a string contains no percent character, and is therefore left
unchanged by formatting with no operands. -/
def percentFree (s : String) : Bool :=
  s.data.all (fun c => c != '%')

/-- RFC 5321 section 4.5.2 dot-unstuffing as applied in session.readData:
remove a leading dot. -/
def unstuff (s : String) : String :=
  match s.data with
  | '.' :: rest => String.mk rest
  | _ => s

/-- Failure modes of the data reader: a read error, the size cap exceeded,
or the transcript ran out of input mid-body. -/
inductive DErr where
  | rerr (e : RErr)
  | tooBig
  | blocked
deriving DecidableEq, Repr

/-- session.readData: consume lines until the terminator, unstuffing leading
dots and enforcing the size cap before appending; returns the outcome and
the unconsumed items.  The bufio discard of buffered remnants on overflow is
not modelled at the line level. -/
def readDataAux (ms : Int) : List Item → String → (Except DErr String) × List Item
  | [], _ => (Except.error DErr.blocked, [])
  | Item.err e :: rest, _ => (Except.error (DErr.rerr e), rest)
  | Item.line raw :: rest, acc =>
    if raw = ".\r\n" then (Except.ok acc, rest)
    else
      let l := unstuff raw
      if ms > 0 && ((acc.length : Int) + (l.length : Int) > ms) then
        (Except.error DErr.tooBig, rest)
      else
        readDataAux ms rest (acc ++ l)

def readData (ms : Int) (items : List Item) : (Except DErr String) × List Item :=
  readDataAux ms items ""

/-- The transaction reset performed at reset points: clear the sender, the
recipients and the buffer. -/
def resetTransaction (st : SState) : SState :=
  {st with mfrom := "", gotFrom := false, rcpts := none, buffer := ""}

/-- Number of accumulated recipients (the length of a nil slice is zero). -/
def toLen (st : SState) : Nat :=
  (st.rcpts.getD []).length

/-- The per-recipient hook: accept unless a HandlerRcpt is set and rejects. -/
def acceptRcpt (cfg : Config) (st : SState) (cap : String) : Bool :=
  match cfg.handlerRcpt with
  | none => true
  | some f => f st.mfrom cap

/-- The MAIL branch of the verb switch, before the unconditional clearing of
recipients and buffer that follows it. -/
def mailStep (cfg : Config) (st : SState) (args : String) : SState × String :=
  match mailFromMatch args.data with
  | none => (st, m501From)
  | some m =>
    if m.hasParams then
      match mailSizeMatch m.cap3 with
      | none => (st, m501Size)
      | some ds =>
        match goAtoi ds with
        | none => (st, m501Size)
        | some size =>
          if cfg.maxSize > 0 && size > cfg.maxSize then
            (st, m552 cfg.maxSize)
          else
            ({st with mfrom := String.mk m.cap1, gotFrom := true}, m250Mail)
    else
      ({st with mfrom := String.mk m.cap1, gotFrom := true}, m250Mail)

/-- The RCPT branch of the verb switch. -/
def rcptStep (cfg : Config) (st : SState) (args : String) : SState × String :=
  if !st.gotFrom then (st, m503Rcpt)
  else
    match rcptToMatch args.data with
    | none => (st, m501To)
    | some cap =>
      if toLen st = 100 then (st, m452)
      else if acceptRcpt cfg st (String.mk cap) then
        ({st with rcpts := some ((st.rcpts.getD []) ++ [String.mk cap])}, m250Rcpt)
      else (st, m550)

/-- The DATA branch of the verb switch: sequence check, 354, body read, and
the per-error-kind handling of session.serve. -/
def dataStep (cfg : Config) (st : SState) (tail : List Item) : StepRes :=
  if !st.gotFrom || st.rcpts.isNone then ⟨st, [Out.reply m503Data], Ctl.cont, tail⟩
  else
    match readData cfg.maxSize tail with
    | (Except.ok d, rest) =>
      let tos := st.rcpts.getD []
      ⟨resetTransaction st,
        [Out.reply m354, Out.reply m250Queued] ++
          (if cfg.hasHandler then [Out.handler st.mfrom tos (makeHeaders cfg st tos ++ d)]
           else []),
        Ctl.cont, rest⟩
    | (Except.error (DErr.rerr RErr.timeout), rest) =>
      ⟨st, [Out.reply m354, Out.reply (m421 cfg)], Ctl.stop, rest⟩
    | (Except.error (DErr.rerr RErr.net), rest) =>
      ⟨st, [Out.reply m354], Ctl.stop, rest⟩
    | (Except.error (DErr.rerr RErr.other), rest) =>
      ⟨st, [Out.reply m354, Out.reply m451], Ctl.cont, rest⟩
    | (Except.error DErr.tooBig, rest) =>
      ⟨st, [Out.reply m354, Out.reply (m552 cfg.maxSize)], Ctl.cont, rest⟩
    | (Except.error DErr.blocked, rest) =>
      ⟨st, [Out.reply m354], Ctl.blocked, rest⟩

/-- The STARTTLS branch of the verb switch.  The handshake outcome oracle in
the state supplies the result; an exhausted oracle behaves as a failure.
After a failed handshake control returns to the command loop (the break in
the source leaves the switch, not the loop). -/
def starttlsStep (cfg : Config) (st : SState) (tail : List Item) : StepRes :=
  if !cfg.tlsConfigured then ⟨st, [Out.reply m502], Ctl.cont, tail⟩
  else if st.tls then ⟨st, [Out.reply m503Tls], Ctl.cont, tail⟩
  else
    match st.hs with
    | true :: hrest =>
      ⟨{st with
          remoteName := ""
          tls := true
          mfrom := ""
          gotFrom := false
          rcpts := none
          buffer := ""
          hs := hrest},
        [Out.reply m220Tls], Ctl.cont, tail⟩
    | false :: hrest =>
      ⟨{st with hs := hrest}, [Out.reply m220Tls, Out.reply m403], Ctl.cont, tail⟩
    | [] => ⟨st, [Out.reply m220Tls, Out.reply m403], Ctl.cont, tail⟩

/-- The verb switch of session.serve. -/
def dispatchCmd (cfg : Config) (st : SState) (verb args : String) (tail : List Item) :
    StepRes :=
  if verb = "HELO" then
    ⟨{st with remoteName := args, mfrom := "", gotFrom := false, rcpts := none, buffer := ""},
      [Out.reply (mHelo cfg args)], Ctl.cont, tail⟩
  else if verb = "EHLO" then
    ⟨{st with remoteName := args, mfrom := "", gotFrom := false, rcpts := none, buffer := ""},
      [Out.reply (fmtNoOperands (makeEHLOResponse cfg {st with remoteName := args}))],
      Ctl.cont, tail⟩
  else if verb = "MAIL" then
    ⟨{(mailStep cfg st args).1 with rcpts := none, buffer := ""},
      [Out.reply (mailStep cfg st args).2], Ctl.cont, tail⟩
  else if verb = "RCPT" then
    ⟨(rcptStep cfg st args).1, [Out.reply (rcptStep cfg st args).2], Ctl.cont, tail⟩
  else if verb = "DATA" then dataStep cfg st tail
  else if verb = "QUIT" then ⟨st, [Out.reply (m221 cfg)], Ctl.stop, tail⟩
  else if verb = "RSET" then ⟨resetTransaction st, [Out.reply m250Ok], Ctl.cont, tail⟩
  else if verb = "NOOP" then ⟨st, [Out.reply m250Ok], Ctl.cont, tail⟩
  else if verb = "HELP" ∨ verb = "VRFY" ∨ verb = "EXPN" then
    ⟨st, [Out.reply m502], Ctl.cont, tail⟩
  else if verb = "STARTTLS" then starttlsStep cfg st tail
  else ⟨st, [Out.reply m500], Ctl.cont, tail⟩

/-- The commands exempt from the RFC 3207 gate. -/
def allowedCmds : List String := ["NOOP", "EHLO", "STARTTLS", "QUIT"]

/-- Whether the RFC 3207 gate rejects this verb: TLS configured and required
but not yet in use, and the verb is not exempt. -/
def gateActive (cfg : Config) (st : SState) (verb : String) : Bool :=
  cfg.tlsConfigured && cfg.tlsRequired && !st.tls && !(allowedCmds.contains verb)

/-- One iteration of the command loop after the line is parsed: the RFC 3207
gate, then the verb switch. -/
def dispatch (cfg : Config) (st : SState) (verb args : String) (tail : List Item) :
    StepRes :=
  if gateActive cfg st verb then ⟨st, [Out.reply m530], Ctl.cont, tail⟩
  else dispatchCmd cfg st verb args tail

/-- Read one command line (trim, parse) and dispatch it. -/
def applyCmd (cfg : Config) (st : SState) (raw : String) (tail : List Item) : StepRes :=
  dispatch cfg st (parseLine (trimSpace raw)).1 (parseLine (trimSpace raw)).2 tail

/-- The command loop of session.serve over a finite transcript.  The fuel
bounds the number of iterations; every iteration consumes at least one item,
so fuel equal to the transcript length always suffices. -/
def serveLoop (cfg : Config) : Nat → SState → List Item → List Out × EndSt
  | _, _, [] => ([], EndSt.awaiting)
  | _, _, Item.err RErr.timeout :: _ => ([Out.reply (m421 cfg)], EndSt.closed)
  | _, _, Item.err RErr.net :: _ => ([], EndSt.closed)
  | _, _, Item.err RErr.other :: _ => ([], EndSt.closed)
  | 0, st, Item.line raw :: tail =>
    let r := applyCmd cfg st raw tail
    match r.ctl with
    | Ctl.stop => (r.outs, EndSt.closed)
    | Ctl.blocked => (r.outs, EndSt.awaiting)
    | Ctl.cont => (r.outs, EndSt.awaiting)
  | fuel + 1, st, Item.line raw :: tail =>
    let r := applyCmd cfg st raw tail
    match r.ctl with
    | Ctl.stop => (r.outs, EndSt.closed)
    | Ctl.blocked => (r.outs, EndSt.awaiting)
    | Ctl.cont =>
      let p := serveLoop cfg fuel r.st r.rest
      (r.outs ++ p.1, p.2)

/-- The session state at connection time: tls0 records whether the accepted
connection is already TLS; hs is the handshake oracle. -/
def initState (tls0 : Bool) (hs : List Bool) : SState :=
  ⟨"", tls0, "", false, none, "", hs⟩

/-- session.serve: the banner, then the command loop. -/
def serve (cfg : Config) (tls0 : Bool) (hs : List Bool) (items : List Item) :
    List Out × EndSt :=
  ((Out.reply (banner cfg)) :: (serveLoop cfg items.length (initState tls0 hs) items).1,
    (serveLoop cfg items.length (initState tls0 hs) items).2)

/-- Session states reachable from st0 by dispatching commands. -/
inductive Reaches (cfg : Config) (st0 : SState) : SState → Prop
  | refl : Reaches cfg st0 st0
  | step (st : SState) (verb args : String) (tail : List Item) :
      Reaches cfg st0 st → Reaches cfg st0 (dispatch cfg st verb args tail).st

/-- Concatenation of a list of strings in order. -/
def concatStrs : List String → String
  | [] => ""
  | s :: ss => s ++ concatStrs ss

/-- Split a character list at each CRLF pair. -/
def splitCRLF : List Char → List (List Char)
  | [] => [[]]
  | '\r' :: '\n' :: rest => [] :: splitCRLF rest
  | c :: rest =>
    match splitCRLF rest with
    | [] => [[c]]
    | l :: ls => (c :: l) :: ls

/-- Whether a character list is free of carriage returns and line feeds. -/
def crlfFreeL (cs : List Char) : Bool :=
  cs.all (fun c => c != '\r' && c != '\n')

def crlfFree (s : String) : Bool :=
  crlfFreeL s.data

/-- The lines of a multi-line response, split at CRLF. -/
def respLines (s : String) : List String :=
  (splitCRLF s.data).map String.mk

/-- Concrete fixtures used by the witnesses below. -/
def cfgW : Config :=
  ⟨"mail.example.com", "smtpd", 0, false, false, true, none,
    "host.example.net", "192.0.2.1", "Mon, 1 Jan 2024 00:00:00 +0000 (UTC)"⟩

def cfgTlsW : Config := {cfgW with tlsConfigured := true}

def cfgGateW : Config := {cfgW with tlsConfigured := true, tlsRequired := true}

def stW : SState := initState false []

def stMailW : SState := {stW with mfrom := "a@b", gotFrom := true, rcpts := some ["c@d"]}

theorem dispatchCmd_helo (cfg : Config) (st : SState) (args : String) (tail : List Item) :
    dispatchCmd cfg st "HELO" args tail =
      ⟨{st with remoteName := args, mfrom := "", gotFrom := false, rcpts := none, buffer := ""},
        [Out.reply (mHelo cfg args)], Ctl.cont, tail⟩ := rfl

theorem dispatchCmd_ehlo (cfg : Config) (st : SState) (args : String) (tail : List Item) :
    dispatchCmd cfg st "EHLO" args tail =
      ⟨{st with remoteName := args, mfrom := "", gotFrom := false, rcpts := none, buffer := ""},
        [Out.reply (fmtNoOperands (makeEHLOResponse cfg {st with remoteName := args}))],
        Ctl.cont, tail⟩ := rfl

theorem dispatchCmd_mail (cfg : Config) (st : SState) (args : String) (tail : List Item) :
    dispatchCmd cfg st "MAIL" args tail =
      ⟨{(mailStep cfg st args).1 with rcpts := none, buffer := ""},
        [Out.reply (mailStep cfg st args).2], Ctl.cont, tail⟩ := rfl

theorem dispatchCmd_rcpt (cfg : Config) (st : SState) (args : String) (tail : List Item) :
    dispatchCmd cfg st "RCPT" args tail =
      ⟨(rcptStep cfg st args).1, [Out.reply (rcptStep cfg st args).2], Ctl.cont, tail⟩ := rfl

theorem dispatchCmd_data (cfg : Config) (st : SState) (args : String) (tail : List Item) :
    dispatchCmd cfg st "DATA" args tail = dataStep cfg st tail := rfl

theorem dispatchCmd_rset (cfg : Config) (st : SState) (args : String) (tail : List Item) :
    dispatchCmd cfg st "RSET" args tail =
      ⟨resetTransaction st, [Out.reply m250Ok], Ctl.cont, tail⟩ := rfl

theorem dispatchCmd_starttls (cfg : Config) (st : SState) (args : String) (tail : List Item) :
    dispatchCmd cfg st "STARTTLS" args tail = starttlsStep cfg st tail := rfl

theorem gate_data_irrelevant (cfg : Config) (st : SState) (verb : String)
    (h : allowedCmds.contains verb = true) :
    dispatch cfg st verb = dispatchCmd cfg st verb := by
  funext args tail
  unfold dispatch gateActive
  rw [h]
  simp

/-- C10: every MAIL command, whatever its reply (250, 501 or 552), clears the
accumulated recipient list and the body buffer: a failed MAIL is not atomic
and previously accepted recipients are discarded. -/
theorem claim_C10_mail_clears (cfg : Config) (st : SState) (args : String)
    (tail : List Item) :
    (dispatchCmd cfg st "MAIL" args tail).st.rcpts = none ∧
    (dispatchCmd cfg st "MAIL" args tail).st.buffer = "" := by
  rw [dispatchCmd_mail]
  exact ⟨rfl, rfl⟩

/-- C6: with TLS configured and required but not yet active, any verb outside
NOOP, EHLO, STARTTLS, QUIT is answered 530 with no state change and nothing
else happens; verbs inside that set are dispatched exactly as without the
gate. -/
theorem claim_C6_tls_gate :
    (∀ (cfg : Config) (st : SState) (verb args : String) (tail : List Item),
      cfg.tlsConfigured = true → cfg.tlsRequired = true → st.tls = false →
      allowedCmds.contains verb = false →
      dispatch cfg st verb args tail = ⟨st, [Out.reply m530], Ctl.cont, tail⟩) ∧
    (∀ (cfg : Config) (st : SState) (verb : String),
      allowedCmds.contains verb = true →
      dispatch cfg st verb = dispatchCmd cfg st verb) := by
  constructor
  · intro cfg st verb args tail h1 h2 h3 h4
    unfold dispatch gateActive
    rw [h1, h2, h3, h4]
    simp
  · intro cfg st verb h
    exact gate_data_irrelevant cfg st verb h

/-- C6 witness: under the gate a MAIL command is answered 530 and NOOP is
dispatched normally. -/
theorem claim_C6_tls_gate_witness :
    dispatch cfgGateW stW "MAIL" "FROM:<a@b>" [] =
      ⟨stW, [Out.reply m530], Ctl.cont, []⟩ ∧
    dispatch cfgGateW stW "NOOP" = dispatchCmd cfgGateW stW "NOOP" :=
  ⟨claim_C6_tls_gate.1 cfgGateW stW "MAIL" "FROM:<a@b>" [] rfl rfl rfl (by decide),
    claim_C6_tls_gate.2 cfgGateW stW "NOOP" (by decide)⟩

/-- C8: MAIL argument handling: no regex match gives 501; a match without a
parameter group gives 250 and records the sender (the capture may be empty
and matching is case-insensitive); with a parameter group, a missing SIZE
gives 501, an out-of-range numeric gives 501, a value above a positive
configured maximum gives 552 without recording the sender, and an acceptable
value gives 250 and records the sender. -/
theorem claim_C8_mail_parsing :
    (∀ (cfg : Config) (st : SState) (args : String) (tail : List Item),
      mailFromMatch args.data = none →
      dispatchCmd cfg st "MAIL" args tail =
        ⟨{st with rcpts := none, buffer := ""}, [Out.reply m501From], Ctl.cont, tail⟩) ∧
    (∀ (cfg : Config) (st : SState) (args : String) (tail : List Item) (m : FromMatch),
      mailFromMatch args.data = some m → m.hasParams = false →
      dispatchCmd cfg st "MAIL" args tail =
        ⟨{st with mfrom := String.mk m.cap1, gotFrom := true, rcpts := none, buffer := ""},
          [Out.reply m250Mail], Ctl.cont, tail⟩) ∧
    (∀ (cfg : Config) (st : SState) (args : String) (tail : List Item) (m : FromMatch),
      mailFromMatch args.data = some m → m.hasParams = true →
      mailSizeMatch m.cap3 = none →
      dispatchCmd cfg st "MAIL" args tail =
        ⟨{st with rcpts := none, buffer := ""}, [Out.reply m501Size], Ctl.cont, tail⟩) ∧
    (∀ (cfg : Config) (st : SState) (args : String) (tail : List Item) (m : FromMatch)
        (ds : List Char),
      mailFromMatch args.data = some m → m.hasParams = true →
      mailSizeMatch m.cap3 = some ds → goAtoi ds = none →
      dispatchCmd cfg st "MAIL" args tail =
        ⟨{st with rcpts := none, buffer := ""}, [Out.reply m501Size], Ctl.cont, tail⟩) ∧
    (∀ (cfg : Config) (st : SState) (args : String) (tail : List Item) (m : FromMatch)
        (ds : List Char) (n : Int),
      mailFromMatch args.data = some m → m.hasParams = true →
      mailSizeMatch m.cap3 = some ds → goAtoi ds = some n →
      cfg.maxSize > 0 → n > cfg.maxSize →
      dispatchCmd cfg st "MAIL" args tail =
        ⟨{st with rcpts := none, buffer := ""}, [Out.reply (m552 cfg.maxSize)],
          Ctl.cont, tail⟩) ∧
    (∀ (cfg : Config) (st : SState) (args : String) (tail : List Item) (m : FromMatch)
        (ds : List Char) (n : Int),
      mailFromMatch args.data = some m → m.hasParams = true →
      mailSizeMatch m.cap3 = some ds → goAtoi ds = some n →
      ¬(cfg.maxSize > 0 ∧ n > cfg.maxSize) →
      dispatchCmd cfg st "MAIL" args tail =
        ⟨{st with mfrom := String.mk m.cap1, gotFrom := true, rcpts := none, buffer := ""},
          [Out.reply m250Mail], Ctl.cont, tail⟩) ∧
    mailFromMatch "FrOm:<>".data = some ⟨[], false, []⟩ := by
  refine ⟨?_, ?_, ?_, ?_, ?_, ?_, by decide⟩
  · intro cfg st args tail h
    cases st
    simp [dispatchCmd_mail, mailStep, h]
  · intro cfg st args tail m h hp
    cases st
    simp [dispatchCmd_mail, mailStep, h, hp]
  · intro cfg st args tail m h hp hs
    cases st
    simp [dispatchCmd_mail, mailStep, h, hp, hs]
  · intro cfg st args tail m ds h hp hs ha
    cases st
    simp [dispatchCmd_mail, mailStep, h, hp, hs, ha]
  · intro cfg st args tail m ds n h hp hs ha h5 h6
    cases st
    rw [dispatchCmd_mail]
    unfold mailStep
    rw [h]
    simp only [hp, if_true, hs, ha]
    rw [if_pos (by simp only [Bool.and_eq_true, decide_eq_true_eq]; exact ⟨h5, h6⟩)]
  · intro cfg st args tail m ds n h hp hs ha hn
    cases st
    rw [dispatchCmd_mail]
    unfold mailStep
    rw [h]
    simp only [hp, if_true, hs, ha]
    rw [if_neg (by simp only [Bool.and_eq_true, decide_eq_true_eq]; exact hn)]

/-- C8 witness: the paths of the theorem at concrete inputs. -/
theorem claim_C8_mail_parsing_witness :
    dispatchCmd cfgW stW "MAIL" "no brackets here" [] =
      ⟨{stW with rcpts := none, buffer := ""}, [Out.reply m501From], Ctl.cont, []⟩ ∧
    dispatchCmd cfgW stW "MAIL" "FROM:<a@b>" [] =
      ⟨{stW with mfrom := String.mk "a@b".data, gotFrom := true, rcpts := none, buffer := ""},
        [Out.reply m250Mail], Ctl.cont, []⟩ ∧
    dispatchCmd cfgW stW "MAIL" "FROM:<a@b> BODY=8BITMIME" [] =
      ⟨{stW with rcpts := none, buffer := ""}, [Out.reply m501Size], Ctl.cont, []⟩ ∧
    dispatchCmd {cfgW with maxSize := 5} stW "MAIL" "FROM:<a@b> SIZE=10" [] =
      ⟨{stW with rcpts := none, buffer := ""}, [Out.reply (m552 5)], Ctl.cont, []⟩ ∧
    dispatchCmd {cfgW with maxSize := 5} stW "MAIL" "FROM:<a@b> SIZE=5" [] =
      ⟨{stW with mfrom := String.mk "a@b".data, gotFrom := true, rcpts := none, buffer := ""},
        [Out.reply m250Mail], Ctl.cont, []⟩ :=
  ⟨claim_C8_mail_parsing.1 cfgW stW "no brackets here" [] (by decide),
    claim_C8_mail_parsing.2.1 cfgW stW "FROM:<a@b>" [] ⟨"a@b".data, false, []⟩ (by decide) rfl,
    claim_C8_mail_parsing.2.2.1 cfgW stW "FROM:<a@b> BODY=8BITMIME" []
      ⟨"a@b".data, true, "BODY=8BITMIME".data⟩ (by decide) rfl (by decide),
    claim_C8_mail_parsing.2.2.2.2.1 {cfgW with maxSize := 5} stW "FROM:<a@b> SIZE=10" []
      ⟨"a@b".data, true, "SIZE=10".data⟩ "10".data 10 (by decide) rfl (by decide) (by decide)
      (by decide) (by decide),
    claim_C8_mail_parsing.2.2.2.2.2.1 {cfgW with maxSize := 5} stW "FROM:<a@b> SIZE=5" []
      ⟨"a@b".data, true, "SIZE=5".data⟩ "5".data 5 (by decide) rfl (by decide) (by decide)
      (by decide)⟩

/-- C5: each reset point (RSET, HELO, EHLO, successful end-of-DATA delivery,
STARTTLS upgrade) leaves the transaction with no sender, no recipients and an
empty buffer, and a DATA command in such a state is answered 503. -/
theorem claim_C5_reset_points :
    (∀ (cfg : Config) (st : SState) (args : String) (tail : List Item),
      (dispatchCmd cfg st "RSET" args tail).st.gotFrom = false ∧
      (dispatchCmd cfg st "RSET" args tail).st.rcpts = none ∧
      (dispatchCmd cfg st "RSET" args tail).st.buffer = "") ∧
    (∀ (cfg : Config) (st : SState) (args : String) (tail : List Item),
      (dispatchCmd cfg st "HELO" args tail).st.gotFrom = false ∧
      (dispatchCmd cfg st "HELO" args tail).st.rcpts = none ∧
      (dispatchCmd cfg st "HELO" args tail).st.buffer = "") ∧
    (∀ (cfg : Config) (st : SState) (args : String) (tail : List Item),
      (dispatchCmd cfg st "EHLO" args tail).st.gotFrom = false ∧
      (dispatchCmd cfg st "EHLO" args tail).st.rcpts = none ∧
      (dispatchCmd cfg st "EHLO" args tail).st.buffer = "") ∧
    (∀ (cfg : Config) (st : SState) (args : String) (tail : List Item)
        (d : String) (rest : List Item),
      st.gotFrom = true → st.rcpts.isNone = false →
      readData cfg.maxSize tail = (Except.ok d, rest) →
      (dispatchCmd cfg st "DATA" args tail).st.gotFrom = false ∧
      (dispatchCmd cfg st "DATA" args tail).st.rcpts = none ∧
      (dispatchCmd cfg st "DATA" args tail).st.buffer = "") ∧
    (∀ (cfg : Config) (st : SState) (args : String) (tail : List Item) (hrest : List Bool),
      cfg.tlsConfigured = true → st.tls = false → st.hs = true :: hrest →
      (dispatchCmd cfg st "STARTTLS" args tail).st.gotFrom = false ∧
      (dispatchCmd cfg st "STARTTLS" args tail).st.rcpts = none ∧
      (dispatchCmd cfg st "STARTTLS" args tail).st.buffer = "") ∧
    (∀ (cfg : Config) (st : SState) (args : String) (tail : List Item),
      st.gotFrom = false →
      dispatchCmd cfg st "DATA" args tail = ⟨st, [Out.reply m503Data], Ctl.cont, tail⟩) := by
  refine ⟨?_, ?_, ?_, ?_, ?_, ?_⟩
  · intro cfg st args tail
    rw [dispatchCmd_rset]
    exact ⟨rfl, rfl, rfl⟩
  · intro cfg st args tail
    rw [dispatchCmd_helo]
    exact ⟨rfl, rfl, rfl⟩
  · intro cfg st args tail
    rw [dispatchCmd_ehlo]
    exact ⟨rfl, rfl, rfl⟩
  · intro cfg st args tail d rest hf ht hr
    rw [dispatchCmd_data]
    unfold dataStep
    rw [hf, ht, hr]
    simp [resetTransaction]
  · intro cfg st args tail hrest hc htls hhs
    rw [dispatchCmd_starttls]
    unfold starttlsStep
    rw [hc, htls, hhs]
    simp
  · intro cfg st args tail hf
    rw [dispatchCmd_data]
    unfold dataStep
    rw [hf]
    simp

/-- C5 witness: the reset facts at concrete inputs, including a delivered
DATA phase and a successful STARTTLS upgrade. -/
theorem claim_C5_reset_points_witness :
    (dispatchCmd cfgW stMailW "RSET" "" []).st.gotFrom = false ∧
    (dispatchCmd cfgW stMailW "DATA" ""
        [Item.line "hi\r\n", Item.line ".\r\n"]).st.rcpts = none ∧
    (dispatchCmd cfgTlsW (initState false [true]) "STARTTLS" "" []).st.buffer = "" ∧
    dispatchCmd cfgW stW "DATA" "" [] = ⟨stW, [Out.reply m503Data], Ctl.cont, []⟩ :=
  ⟨(claim_C5_reset_points.1 cfgW stMailW "" []).1,
    (claim_C5_reset_points.2.2.2.1 cfgW stMailW ""
      [Item.line "hi\r\n", Item.line ".\r\n"] "hi\r\n" [] rfl (by decide) (by rfl)).2.1,
    (claim_C5_reset_points.2.2.2.2.1 cfgTlsW (initState false [true]) "" [] []
      rfl rfl rfl).2.2,
    claim_C5_reset_points.2.2.2.2.2 cfgW stW "" [] rfl⟩

/-- C1 counterexample: TLS is configured and not yet active, STARTTLS is
accepted and the handshake fails (oracle false); the session does NOT
terminate: the following NOOP line is still read and answered 250, because
the break in the STARTTLS arm leaves the switch, not the labelled loop. -/
theorem claim_C1_cex :
    serveLoop cfgTlsW 2 (initState false [false])
        [Item.line "STARTTLS\r\n", Item.line "NOOP\r\n"] =
      ([Out.reply m220Tls, Out.reply m403, Out.reply m250Ok], EndSt.awaiting) := by
  decide

/-- C1 (amended): on a failed handshake the server replies 403 4.7.0 and then
REMAINS in the command loop with TLS still inactive; subsequent command lines
are read and answered. -/
theorem claim_C1_starttls_failure :
    (∀ (cfg : Config) (st : SState) (args : String) (tail : List Item) (hrest : List Bool),
      cfg.tlsConfigured = true → st.tls = false → st.hs = false :: hrest →
      dispatchCmd cfg st "STARTTLS" args tail =
        ⟨{st with hs := hrest}, [Out.reply m220Tls, Out.reply m403], Ctl.cont, tail⟩) ∧
    (∀ (cfg : Config) (fuel : Nat) (st : SState) (raw args : String) (tail : List Item)
        (hrest : List Bool),
      parseLine (trimSpace raw) = ("STARTTLS", args) →
      cfg.tlsConfigured = true → st.tls = false → st.hs = false :: hrest →
      serveLoop cfg (fuel + 1) st (Item.line raw :: tail) =
        (Out.reply m220Tls :: Out.reply m403 ::
            (serveLoop cfg fuel {st with hs := hrest} tail).1,
          (serveLoop cfg fuel {st with hs := hrest} tail).2)) := by
  constructor
  · intro cfg st args tail hrest hc htls hhs
    rw [dispatchCmd_starttls]
    unfold starttlsStep
    rw [hc, htls, hhs]
    simp
  · intro cfg fuel st raw args tail hrest hp hc htls hhs
    have hr : applyCmd cfg st raw tail =
        ⟨{st with hs := hrest}, [Out.reply m220Tls, Out.reply m403], Ctl.cont, tail⟩ := by
      unfold applyCmd
      rw [hp]
      unfold dispatch
      rw [show gateActive cfg st "STARTTLS" = false by simp [gateActive, allowedCmds]]
      simp only [Bool.false_eq_true, if_false]
      rw [dispatchCmd_starttls]
      unfold starttlsStep
      rw [hc, htls, hhs]
      simp
    simp only [serveLoop, hr]
    rfl

/-- C1 witness: the amended behaviour at a concrete input. -/
theorem claim_C1_starttls_failure_witness :
    dispatchCmd cfgTlsW (initState false [false]) "STARTTLS" "" [] =
      ⟨{initState false [false] with hs := []},
        [Out.reply m220Tls, Out.reply m403], Ctl.cont, []⟩ ∧
    serveLoop cfgTlsW 1 (initState false [false])
        [Item.line "STARTTLS\r\n", Item.line "NOOP\r\n"] =
      (Out.reply m220Tls :: Out.reply m403 ::
          (serveLoop cfgTlsW 0 {initState false [false] with hs := []}
            [Item.line "NOOP\r\n"]).1,
        (serveLoop cfgTlsW 0 {initState false [false] with hs := []}
          [Item.line "NOOP\r\n"]).2) :=
  ⟨claim_C1_starttls_failure.1 cfgTlsW (initState false [false]) "" [] [] rfl rfl rfl,
    claim_C1_starttls_failure.2 cfgTlsW 0 (initState false [false]) "STARTTLS\r\n" ""
      [Item.line "NOOP\r\n"] [] (by decide) rfl rfl rfl⟩

/-- C2 counterexample: a non-timeout net.Error during the DATA phase does not
produce a 451 and does not keep the session open: the session closes silently
after the 354, refuting the claim for non-timeout read errors in general. -/
theorem claim_C2_cex :
    serveLoop cfgW 4 (initState false [])
        [Item.line "MAIL FROM:<a@b>\r\n", Item.line "RCPT TO:<c@d>\r\n",
          Item.line "DATA\r\n", Item.err RErr.net] =
      ([Out.reply m250Mail, Out.reply m250Rcpt, Out.reply m354], EndSt.closed) := by
  decide

/-- C2 (amended): on a DATA-phase read failure, a timeout replies 421 and the
session closes; any other net.Error closes the session silently with no
further reply; a non-net read error replies 451 and the session remains open,
with the next command line read and answered normally. -/
theorem claim_C2_data_read_errors :
    (∀ (cfg : Config) (st : SState) (args : String) (tail rest : List Item),
      st.gotFrom = true → st.rcpts.isNone = false →
      readData cfg.maxSize tail = (Except.error (DErr.rerr RErr.timeout), rest) →
      dispatchCmd cfg st "DATA" args tail =
        ⟨st, [Out.reply m354, Out.reply (m421 cfg)], Ctl.stop, rest⟩) ∧
    (∀ (cfg : Config) (st : SState) (args : String) (tail rest : List Item),
      st.gotFrom = true → st.rcpts.isNone = false →
      readData cfg.maxSize tail = (Except.error (DErr.rerr RErr.net), rest) →
      dispatchCmd cfg st "DATA" args tail =
        ⟨st, [Out.reply m354], Ctl.stop, rest⟩) ∧
    (∀ (cfg : Config) (st : SState) (args : String) (tail rest : List Item),
      st.gotFrom = true → st.rcpts.isNone = false →
      readData cfg.maxSize tail = (Except.error (DErr.rerr RErr.other), rest) →
      dispatchCmd cfg st "DATA" args tail =
        ⟨st, [Out.reply m354, Out.reply m451], Ctl.cont, rest⟩) ∧
    (∀ (cfg : Config) (fuel : Nat) (st : SState) (raw args : String) (tail rest : List Item),
      parseLine (trimSpace raw) = ("DATA", args) →
      gateActive cfg st "DATA" = false →
      st.gotFrom = true → st.rcpts.isNone = false →
      readData cfg.maxSize tail = (Except.error (DErr.rerr RErr.other), rest) →
      serveLoop cfg (fuel + 1) st (Item.line raw :: tail) =
        (Out.reply m354 :: Out.reply m451 :: (serveLoop cfg fuel st rest).1,
          (serveLoop cfg fuel st rest).2)) ∧
    (∀ (cfg : Config) (fuel : Nat) (st : SState) (raw args : String) (tail rest : List Item),
      parseLine (trimSpace raw) = ("DATA", args) →
      gateActive cfg st "DATA" = false →
      st.gotFrom = true → st.rcpts.isNone = false →
      readData cfg.maxSize tail = (Except.error (DErr.rerr RErr.timeout), rest) →
      serveLoop cfg (fuel + 1) st (Item.line raw :: tail) =
        ([Out.reply m354, Out.reply (m421 cfg)], EndSt.closed)) := by
  refine ⟨?_, ?_, ?_, ?_, ?_⟩
  · intro cfg st args tail rest hf ht hr
    rw [dispatchCmd_data]
    unfold dataStep
    rw [hf, ht, hr]
    simp
  · intro cfg st args tail rest hf ht hr
    rw [dispatchCmd_data]
    unfold dataStep
    rw [hf, ht, hr]
    simp
  · intro cfg st args tail rest hf ht hr
    rw [dispatchCmd_data]
    unfold dataStep
    rw [hf, ht, hr]
    simp
  · intro cfg fuel st raw args tail rest hp hg hf ht hr
    have hac : applyCmd cfg st raw tail =
        ⟨st, [Out.reply m354, Out.reply m451], Ctl.cont, rest⟩ := by
      unfold applyCmd
      rw [hp]
      unfold dispatch
      rw [hg]
      simp only [Bool.false_eq_true, if_false]
      rw [dispatchCmd_data]
      unfold dataStep
      rw [hf, ht, hr]
      simp
    simp only [serveLoop, hac]
    rfl
  · intro cfg fuel st raw args tail rest hp hg hf ht hr
    have hac : applyCmd cfg st raw tail =
        ⟨st, [Out.reply m354, Out.reply (m421 cfg)], Ctl.stop, rest⟩ := by
      unfold applyCmd
      rw [hp]
      unfold dispatch
      rw [hg]
      simp only [Bool.false_eq_true, if_false]
      rw [dispatchCmd_data]
      unfold dataStep
      rw [hf, ht, hr]
      simp
    simp only [serveLoop, hac]

/-- C2 witness: the three error kinds at concrete inputs, including the open
continuation after a 451. -/
theorem claim_C2_data_read_errors_witness :
    dispatchCmd cfgW stMailW "DATA" "" [Item.err RErr.timeout] =
      ⟨stMailW, [Out.reply m354, Out.reply (m421 cfgW)], Ctl.stop, []⟩ ∧
    dispatchCmd cfgW stMailW "DATA" "" [Item.err RErr.net] =
      ⟨stMailW, [Out.reply m354], Ctl.stop, []⟩ ∧
    dispatchCmd cfgW stMailW "DATA" "" [Item.err RErr.other] =
      ⟨stMailW, [Out.reply m354, Out.reply m451], Ctl.cont, []⟩ ∧
    serveLoop cfgW 1 stMailW [Item.line "DATA\r\n", Item.err RErr.other] =
      (Out.reply m354 :: Out.reply m451 :: (serveLoop cfgW 0 stMailW []).1,
        (serveLoop cfgW 0 stMailW []).2) :=
  ⟨claim_C2_data_read_errors.1 cfgW stMailW "" [Item.err RErr.timeout] [] rfl (by decide) rfl,
    claim_C2_data_read_errors.2.1 cfgW stMailW "" [Item.err RErr.net] [] rfl (by decide) rfl,
    claim_C2_data_read_errors.2.2.1 cfgW stMailW "" [Item.err RErr.other] [] rfl
      (by decide) rfl,
    claim_C2_data_read_errors.2.2.2.1 cfgW 0 stMailW "DATA\r\n" ""
      [Item.err RErr.other] [] (by decide) (by decide) rfl (by decide) rfl⟩

theorem concat_length (s : String) (ss : List String) :
    (concatStrs (s :: ss)).length = s.length + (concatStrs ss).length :=
  String.length_append s (concatStrs ss)

/-- Reading a complete body: lines before the terminator are unstuffed and
concatenated onto the accumulator, provided none is the terminator and the
size cap is off or respected by the total. -/
theorem readDataAux_ok (ms : Int) (lines : List String) :
    ∀ (rest : List Item) (acc : String),
      (∀ l ∈ lines, l ≠ ".\r\n") →
      (ms ≤ 0 ∨ (acc.length : Int) + ((concatStrs (lines.map unstuff)).length : Int) ≤ ms) →
      readDataAux ms (lines.map Item.line ++ Item.line ".\r\n" :: rest) acc =
        (Except.ok (acc ++ concatStrs (lines.map unstuff)), rest) := by
  induction lines with
  | nil =>
    intro rest acc _ _
    simp [readDataAux, concatStrs, String.append_empty]
  | cons l ls ih =>
    intro rest acc hne hsz
    have hl : l ≠ ".\r\n" := hne l (List.mem_cons_self l ls)
    have hlen : ((concatStrs ((l :: ls).map unstuff)).length : Int) =
        ((unstuff l).length : Int) + ((concatStrs (ls.map unstuff)).length : Int) := by
      rw [List.map_cons, concat_length]
      push_cast
      ring
    have hc : ¬((ms > 0 && ((acc.length : Int) + ((unstuff l).length : Int) > ms)) = true) := by
      simp only [Bool.and_eq_true, decide_eq_true_eq, not_and]
      intro hms
      rcases hsz with h | h
      · omega
      · rw [hlen] at h
        omega
    have hsz2 : ms ≤ 0 ∨ ((acc ++ unstuff l).length : Int) +
        ((concatStrs (ls.map unstuff)).length : Int) ≤ ms := by
      rcases hsz with h | h
      · exact Or.inl h
      · right
        rw [hlen] at h
        rw [String.length_append]
        push_cast at h ⊢
        omega
    rw [List.map_cons, List.cons_append]
    simp only [readDataAux]
    rw [if_neg hl, if_neg hc, ih rest (acc ++ unstuff l)
      (fun x hx => hne x (List.mem_cons_of_mem l hx)) hsz2]
    rw [show concatStrs ((l :: ls).map unstuff) = unstuff l ++ concatStrs (ls.map unstuff)
      from rfl]
    rw [String.append_assoc]

/-- C3: when DATA is accepted and the body completes, the handler receives
exactly the synthesised Received header followed by the received body lines
in arrival order, each line with its first byte removed when that byte is a
dot, and without the terminating dot line. -/
theorem claim_C3_data_payload (cfg : Config) (st : SState) (args : String)
    (tos : List String) (lines : List String) (rest : List Item)
    (hf : st.gotFrom = true) (ht : st.rcpts = some tos)
    (hh : cfg.hasHandler = true)
    (hne : ∀ l ∈ lines, l ≠ ".\r\n")
    (hsz : cfg.maxSize ≤ 0 ∨
      ((concatStrs (lines.map unstuff)).length : Int) ≤ cfg.maxSize) :
    dispatchCmd cfg st "DATA" args (lines.map Item.line ++ Item.line ".\r\n" :: rest) =
      ⟨resetTransaction st,
        [Out.reply m354, Out.reply m250Queued,
          Out.handler st.mfrom tos
            (makeHeaders cfg st tos ++ concatStrs (lines.map unstuff))],
        Ctl.cont, rest⟩ := by
  have hrd : readData cfg.maxSize (lines.map Item.line ++ Item.line ".\r\n" :: rest) =
      (Except.ok (concatStrs (lines.map unstuff)), rest) := by
    unfold readData
    rw [readDataAux_ok cfg.maxSize lines rest "" hne (by simpa using hsz)]
    rw [String.empty_append]
  rw [dispatchCmd_data]
  unfold dataStep
  rw [hf, hrd, ht]
  simp [hh]

/-- C3 witness: a concrete two-line body with dot-unstuffing on the second
line. -/
theorem claim_C3_data_payload_witness :
    dispatchCmd cfgW stMailW "DATA" ""
        [Item.line "Line 1.\r\n", Item.line "..Line 2.\r\n", Item.line ".\r\n"] =
      ⟨resetTransaction stMailW,
        [Out.reply m354, Out.reply m250Queued,
          Out.handler "a@b" ["c@d"]
            (makeHeaders cfgW stMailW ["c@d"] ++
              concatStrs (["Line 1.\r\n", "..Line 2.\r\n"].map unstuff))],
        Ctl.cont, []⟩ :=
  claim_C3_data_payload cfgW stMailW "" ["c@d"] ["Line 1.\r\n", "..Line 2.\r\n"] []
    rfl rfl rfl (by decide) (Or.inl (by decide))

/-- C9: with a positive size cap, a line whose unstuffed form would push the
accumulated body past the cap makes readData discard everything buffered and
fail with the size error; the DATA phase then replies 552 5.3.4 and the
session stays in the command loop; a body of total length exactly the cap is
accepted. -/
theorem claim_C9_size_cap :
    (∀ (ms : Int) (raw : String) (rest : List Item) (acc : String),
      raw ≠ ".\r\n" → ms > 0 →
      (acc.length : Int) + ((unstuff raw).length : Int) > ms →
      readDataAux ms (Item.line raw :: rest) acc = (Except.error DErr.tooBig, rest)) ∧
    (∀ (cfg : Config) (st : SState) (args : String) (tail rest : List Item),
      st.gotFrom = true → st.rcpts.isNone = false →
      readData cfg.maxSize tail = (Except.error DErr.tooBig, rest) →
      dispatchCmd cfg st "DATA" args tail =
        ⟨st, [Out.reply m354, Out.reply (m552 cfg.maxSize)], Ctl.cont, rest⟩) ∧
    (∀ (cfg : Config) (fuel : Nat) (st : SState) (raw args : String)
        (tail rest : List Item),
      parseLine (trimSpace raw) = ("DATA", args) →
      gateActive cfg st "DATA" = false →
      st.gotFrom = true → st.rcpts.isNone = false →
      readData cfg.maxSize tail = (Except.error DErr.tooBig, rest) →
      serveLoop cfg (fuel + 1) st (Item.line raw :: tail) =
        (Out.reply m354 :: Out.reply (m552 cfg.maxSize) ::
            (serveLoop cfg fuel st rest).1,
          (serveLoop cfg fuel st rest).2)) ∧
    (∀ (ms : Int) (lines : List String) (rest : List Item),
      (∀ l ∈ lines, l ≠ ".\r\n") →
      ((concatStrs (lines.map unstuff)).length : Int) = ms →
      readData ms (lines.map Item.line ++ Item.line ".\r\n" :: rest) =
        (Except.ok (concatStrs (lines.map unstuff)), rest)) := by
  refine ⟨?_, ?_, ?_, ?_⟩
  · intro ms raw rest acc hraw hms hgt
    simp only [readDataAux]
    rw [if_neg hraw, if_pos]
    simp only [Bool.and_eq_true, decide_eq_true_eq]
    exact ⟨hms, hgt⟩
  · intro cfg st args tail rest hf ht hr
    rw [dispatchCmd_data]
    unfold dataStep
    rw [hf, ht, hr]
    simp
  · intro cfg fuel st raw args tail rest hp hg hf ht hr
    have hac : applyCmd cfg st raw tail =
        ⟨st, [Out.reply m354, Out.reply (m552 cfg.maxSize)], Ctl.cont, rest⟩ := by
      unfold applyCmd
      rw [hp]
      unfold dispatch
      rw [hg]
      simp only [Bool.false_eq_true, if_false]
      rw [dispatchCmd_data]
      unfold dataStep
      rw [hf, ht, hr]
      simp
    simp only [serveLoop, hac]
    rfl
  · intro ms lines rest hne hlen
    unfold readData
    rw [readDataAux_ok ms lines rest "" hne (Or.inr (by simp [hlen]))]
    rw [String.empty_append]

/-- C9 witness: cap 5, a six-byte line overflows and replies 552 while the
loop continues; a five-byte body is accepted. -/
theorem claim_C9_size_cap_witness :
    readDataAux 5 [Item.line "123456\r\n"] "" = (Except.error DErr.tooBig, []) ∧
    dispatchCmd {cfgW with maxSize := 5} stMailW "DATA" "" [Item.line "123456\r\n"] =
      ⟨stMailW, [Out.reply m354, Out.reply (m552 5)], Ctl.cont, []⟩ ∧
    serveLoop {cfgW with maxSize := 5} 1 stMailW
        [Item.line "DATA\r\n", Item.line "123456\r\n"] =
      (Out.reply m354 :: Out.reply (m552 5) ::
          (serveLoop {cfgW with maxSize := 5} 0 stMailW []).1,
        (serveLoop {cfgW with maxSize := 5} 0 stMailW []).2) ∧
    readData 5 [Item.line "123\r\n", Item.line ".\r\n"] =
      (Except.ok (concatStrs (["123\r\n"].map unstuff)), []) :=
  ⟨claim_C9_size_cap.1 5 "123456\r\n" [] "" (by decide) (by decide) (by decide),
    claim_C9_size_cap.2.1 {cfgW with maxSize := 5} stMailW "" [Item.line "123456\r\n"] []
      rfl (by decide) rfl,
    claim_C9_size_cap.2.2.1 {cfgW with maxSize := 5} 0 stMailW "DATA\r\n" ""
      [Item.line "123456\r\n"] [] (by decide) (by decide) rfl (by decide) rfl,
    claim_C9_size_cap.2.2.2 5 ["123\r\n"] [] (by decide) (by decide)⟩

set_option maxHeartbeats 1000000 in
/-- Dispatching any command preserves the bound of 100 recipients. -/
theorem toLen_dispatch_le (cfg : Config) (st : SState) (verb args : String)
    (tail : List Item) (h : toLen st ≤ 100) :
    toLen (dispatch cfg st verb args tail).st ≤ 100 := by
  unfold dispatch
  split
  · exact h
  · unfold dispatchCmd
    split_ifs with h1 h2 h3 h4 h5 h6 h7 h8 h9 h10
    · exact Nat.zero_le 100
    · exact Nat.zero_le 100
    · exact Nat.zero_le 100
    · unfold rcptStep
      split_ifs with hg hfull
      · exact h
      · split
        · exact h
        · exact h
      · split
        · exact h
        · split_ifs with hacc
          · have hlt : toLen st < 100 := lt_of_le_of_ne h hfull
            simp only [toLen, Option.getD_some, List.length_append, List.length_singleton]
            simp only [toLen] at hlt
            omega
          · exact h
    · unfold dataStep
      split_ifs with hseq hhand
      · exact h
      · split
        · exact Nat.zero_le 100
        · exact h
        · exact h
        · exact h
        · exact h
        · exact h
      · split
        · exact Nat.zero_le 100
        · exact h
        · exact h
        · exact h
        · exact h
        · exact h
    · exact h
    · exact Nat.zero_le 100
    · exact h
    · exact h
    · unfold starttlsStep
      split_ifs with ha hb
      · exact h
      · exact h
      · split
        · exact Nat.zero_le 100
        · exact h
        · exact h
    · exact h

/-- C4: within one transaction a syntactically valid and accepted RCPT with
fewer than 100 recipients replies 250 and appends its forward-path; with
exactly 100 it replies 452 and appends nothing; and no reachable state holds
more than 100 recipients. -/
theorem claim_C4_recipient_cap :
    (∀ (cfg : Config) (st : SState) (args : String) (cap : List Char) (tail : List Item),
      st.gotFrom = true → rcptToMatch args.data = some cap →
      toLen st < 100 → acceptRcpt cfg st (String.mk cap) = true →
      dispatchCmd cfg st "RCPT" args tail =
        ⟨{st with rcpts := some ((st.rcpts.getD []) ++ [String.mk cap])},
          [Out.reply m250Rcpt], Ctl.cont, tail⟩) ∧
    (∀ (cfg : Config) (st : SState) (args : String) (cap : List Char) (tail : List Item),
      st.gotFrom = true → rcptToMatch args.data = some cap →
      toLen st = 100 →
      dispatchCmd cfg st "RCPT" args tail = ⟨st, [Out.reply m452], Ctl.cont, tail⟩) ∧
    (∀ (cfg : Config) (st0 st : SState), toLen st0 ≤ 100 →
      Reaches cfg st0 st → toLen st ≤ 100) := by
  refine ⟨?_, ?_, ?_⟩
  · intro cfg st args cap tail hf hm hlt hacc
    rw [dispatchCmd_rcpt]
    unfold rcptStep
    rw [hf, hm]
    simp only [Bool.not_true, Bool.false_eq_true, if_false]
    rw [if_neg (Nat.ne_of_lt hlt), if_pos hacc]
  · intro cfg st args cap tail hf hm heq
    rw [dispatchCmd_rcpt]
    unfold rcptStep
    rw [hf, hm]
    simp only [Bool.not_true, Bool.false_eq_true, if_false]
    rw [if_pos heq]
  · intro cfg st0 st h0 hr
    induction hr with
    | refl => exact h0
    | step st' verb args tail _ ih => exact toLen_dispatch_le cfg st' verb args tail ih

/-- A full recipient list used by the C4 witness. -/
def stFullW : SState :=
  {stW with mfrom := "a@b", gotFrom := true, rcpts := some (List.replicate 100 "r@d")}

/-- C4 witness: an accepted 250 append below the cap, the 452 at the cap, and
the invariant after one reachable step. -/
theorem claim_C4_recipient_cap_witness :
    dispatchCmd cfgW stMailW "RCPT" "TO:<e@f>" [] =
      ⟨{stMailW with rcpts := some (["c@d"] ++ [String.mk "e@f".data])},
        [Out.reply m250Rcpt], Ctl.cont, []⟩ ∧
    dispatchCmd cfgW stFullW "RCPT" "TO:<e@f>" [] =
      ⟨stFullW, [Out.reply m452], Ctl.cont, []⟩ ∧
    toLen (dispatch cfgW stMailW "RCPT" "TO:<e@f>" []).st ≤ 100 :=
  ⟨claim_C4_recipient_cap.1 cfgW stMailW "TO:<e@f>" "e@f".data [] rfl (by decide)
      (by decide) rfl,
    claim_C4_recipient_cap.2.1 cfgW stFullW "TO:<e@f>" "e@f".data [] rfl (by decide)
      (by decide),
    claim_C4_recipient_cap.2.2 cfgW stMailW (dispatch cfgW stMailW "RCPT" "TO:<e@f>" []).st
      (by decide) (Reaches.step stMailW "RCPT" "TO:<e@f>" [] Reaches.refl)⟩

theorem mk_data (s : String) : String.mk s.data = s := rfl

theorem crlfFree_append (a b : String) :
    crlfFree (a ++ b) = (crlfFree a && crlfFree b) := by
  simp [crlfFree, crlfFreeL, String.data_append, List.all_append]

/-- A CRLF-free character list is a single line. -/
theorem splitCRLF_single (cs : List Char) (h : crlfFreeL cs = true) :
    splitCRLF cs = [cs] := by
  induction cs with
  | nil => rfl
  | cons c rest ih =>
    rw [crlfFreeL, List.all_cons, Bool.and_eq_true] at h
    obtain ⟨hc, hrest⟩ := h
    rw [Bool.and_eq_true, bne_iff_ne, bne_iff_ne] at hc
    have ihx := ih hrest
    rw [splitCRLF.eq_def]
    split
    · rename_i heq
      exact absurd heq (by simp)
    · rename_i r heq
      injection heq with h1 h2
      exact absurd h1 hc.1
    · rename_i hne1 heq
      injection heq with h1 h2
      subst h1
      subst h2
      rw [ihx]

/-- Splitting peels off a CRLF-free prefix followed by a CRLF pair. -/
theorem splitCRLF_append (a : List Char) (rest : List Char) (h : crlfFreeL a = true) :
    splitCRLF (a ++ '\r' :: '\n' :: rest) = a :: splitCRLF rest := by
  induction a with
  | nil => rfl
  | cons c a2 ih =>
    rw [crlfFreeL, List.all_cons, Bool.and_eq_true] at h
    obtain ⟨hc, hrest⟩ := h
    rw [Bool.and_eq_true, bne_iff_ne, bne_iff_ne] at hc
    have ihx := ih hrest
    rw [List.cons_append, splitCRLF.eq_def]
    split
    · rename_i heq
      exact absurd heq (by simp)
    · rename_i r heq
      injection heq with h1 h2
      exact absurd h1 hc.1
    · rename_i hne1 heq
      injection heq with h1 h2
      subst h1
      rw [← h2, ihx]

theorem respLines_append (a rest : String) (h : crlfFree a = true) :
    respLines (a ++ "\r\n" ++ rest) = a :: respLines rest := by
  unfold respLines
  rw [String.data_append, String.data_append]
  rw [List.append_assoc]
  rw [show ("\r\n".data ++ rest.data : List Char) = '\r' :: '\n' :: rest.data from rfl]
  rw [splitCRLF_append a.data rest.data h]
  rw [List.map_cons, mk_data]

theorem respLines_singleton (a : String) (h : crlfFree a = true) :
    respLines a = [a] := by
  unfold respLines
  rw [splitCRLF_single a.data h]
  simp [mk_data]

theorem percentFree_append (a b : String) :
    percentFree (a ++ b) = (percentFree a && percentFree b) := by
  simp [percentFree, String.data_append, List.all_append]

/-- A percent-free format is copied unchanged by the no-operand scan. -/
theorem fmtAux_percentFree (cs : List Char) :
    ∀ fuel, cs.length ≤ fuel → cs.all (fun c => c != '%') = true →
      fmtAux fuel cs = cs := by
  induction cs with
  | nil =>
    intro fuel _ _
    cases fuel <;> rfl
  | cons c rest ih =>
    intro fuel hf hp
    rw [List.all_cons, Bool.and_eq_true, bne_iff_ne] at hp
    obtain ⟨hc, hrest⟩ := hp
    cases fuel with
    | zero => exact absurd hf (by simp)
    | succ f =>
      have hf2 : rest.length ≤ f := by
        simp only [List.length_cons] at hf
        omega
      simp only [fmtAux]
      rw [if_neg hc, ih f hf2 hrest]

theorem fmtNoOperands_percentFree (s : String) (h : percentFree s = true) :
    fmtNoOperands s = s := by
  unfold fmtNoOperands
  rw [fmtAux_percentFree s.data s.data.length (Nat.le_refl _) h]

/-- C7 counterexample: session.writef passes the EHLO response to Fprintf as
the format string with no operands, so a remote name containing a percent
verb changes the wire bytes: for an EHLO whose argument is a percent
followed by the letter s, the reply carries the missing-operand note in
place of the name, and is not the block whose first line is
250-hostname greets remote_name that the claim promises for every EHLO. -/
theorem claim_C7_cex :
    (dispatchCmd cfgW stW "EHLO" "%s" []).outs =
      [Out.reply
        "250-mail.example.com greets %!s(MISSING)\r\n250-SIZE 0\r\n250 ENHANCEDSTATUSCODES"] ∧
    "250-mail.example.com greets %!s(MISSING)\r\n250-SIZE 0\r\n250 ENHANCEDSTATUSCODES" ≠
      "250-" ++ cfgW.hostname ++ " greets " ++ "%s" ++ "\r\n250-SIZE " ++
        toString cfgW.maxSize ++ "\r\n250 ENHANCEDSTATUSCODES" := by
  decide

set_option maxHeartbeats 1000000 in
/-- C7 (amended): the wire bytes of the EHLO reply are the Fprintf result of
the response text with no operands; when the hostname, the client-supplied
name and the formatted size contain no percent character, formatting is the
identity and the response is the multi-line 250 block: first line
250-hostname greets remote_name, then 250-SIZE max_size, then 250-STARTTLS
exactly when TLS is configured and not yet active, ending with
250 ENHANCEDSTATUSCODES; every non-final line starts with the dash form and
the final line is the space form.  CR/LF freeness of the same components is
assumed, as a line-structure statement requires. -/
theorem claim_C7_ehlo_response (cfg : Config) (st : SState) (args : String)
    (tail : List Item)
    (hh : crlfFree cfg.hostname = true) (hr : crlfFree args = true)
    (hm : crlfFree (toString cfg.maxSize) = true)
    (ph : percentFree cfg.hostname = true) (pr : percentFree args = true)
    (pm : percentFree (toString cfg.maxSize) = true) :
    dispatchCmd cfg st "EHLO" args tail =
      ⟨{st with remoteName := args, mfrom := "", gotFrom := false, rcpts := none, buffer := ""},
        [Out.reply (fmtNoOperands (makeEHLOResponse cfg {st with remoteName := args}))],
        Ctl.cont, tail⟩ ∧
    fmtNoOperands (makeEHLOResponse cfg {st with remoteName := args}) =
      makeEHLOResponse cfg {st with remoteName := args} ∧
    respLines (fmtNoOperands (makeEHLOResponse cfg {st with remoteName := args})) =
      ["250-" ++ cfg.hostname ++ " greets " ++ args,
        "250-SIZE " ++ toString cfg.maxSize] ++
        (if cfg.tlsConfigured && !st.tls then ["250-STARTTLS"] else []) ++
        ["250 ENHANCEDSTATUSCODES"] ∧
    (∀ l ∈ (respLines (fmtNoOperands
        (makeEHLOResponse cfg {st with remoteName := args}))).dropLast,
      ∃ t, l = "250-" ++ t) ∧
    (∃ pre, respLines (fmtNoOperands (makeEHLOResponse cfg {st with remoteName := args})) =
      pre ++ ["250 ENHANCEDSTATUSCODES"]) := by
  have hA : crlfFree ("250-" ++ cfg.hostname ++ " greets " ++ args) = true := by
    simp [crlfFree_append, hh, hr]
    decide
  have hB : crlfFree ("250-SIZE " ++ toString cfg.maxSize) = true := by
    simp [crlfFree_append, hm]
    decide
  have hsTls : ({st with remoteName := args} : SState).tls = st.tls := rfl
  have e : makeEHLOResponse cfg {st with remoteName := args} =
      ("250-" ++ cfg.hostname ++ " greets " ++ args) ++ "\r\n" ++
        (("250-SIZE " ++ toString cfg.maxSize) ++ "\r\n" ++
          (if cfg.tlsConfigured && !st.tls then
            "250-STARTTLS" ++ "\r\n" ++ "250 ENHANCEDSTATUSCODES"
          else "250 ENHANCEDSTATUSCODES")) := by
    unfold makeEHLOResponse
    rw [hsTls]
    cases hb : cfg.tlsConfigured && !st.tls
    · simp only [Bool.false_eq_true, if_false]
      simp only [String.append_assoc]
      rfl
    · simp only [if_true]
      rw [show ("250-STARTTLS\r\n" : String) = "250-STARTTLS" ++ "\r\n" from rfl]
      simp only [String.append_assoc]
  have hP : percentFree (makeEHLOResponse cfg {st with remoteName := args}) = true := by
    rw [e]
    cases hb : cfg.tlsConfigured && !st.tls
    · simp only [Bool.false_eq_true, if_false]
      simp [percentFree_append, ph, pr, pm]
      decide
    · simp only [if_true]
      simp [percentFree_append, ph, pr, pm]
      decide
  have hid : fmtNoOperands (makeEHLOResponse cfg {st with remoteName := args}) =
      makeEHLOResponse cfg {st with remoteName := args} :=
    fmtNoOperands_percentFree _ hP
  have hlines : respLines (makeEHLOResponse cfg {st with remoteName := args}) =
      ["250-" ++ cfg.hostname ++ " greets " ++ args,
        "250-SIZE " ++ toString cfg.maxSize] ++
        (if cfg.tlsConfigured && !st.tls then ["250-STARTTLS"] else []) ++
        ["250 ENHANCEDSTATUSCODES"] := by
    rw [e]
    cases hb : cfg.tlsConfigured && !st.tls
    · simp only [Bool.false_eq_true, if_false]
      rw [respLines_append _ _ hA, respLines_append _ _ hB,
        respLines_singleton _ (by decide)]
      simp
    · simp only [if_true]
      rw [respLines_append _ _ hA, respLines_append _ _ hB,
        respLines_append _ _ (by decide), respLines_singleton _ (by decide)]
      simp
  refine ⟨dispatchCmd_ehlo cfg st args tail, hid, ?_, ?_, ?_⟩
  · rw [hid]
    exact hlines
  · rw [hid, hlines]
    cases hb : cfg.tlsConfigured && !st.tls
    · simp only [Bool.false_eq_true, if_false]
      intro l hl
      simp [List.dropLast] at hl
      rcases hl with h1 | h1
      · exact ⟨cfg.hostname ++ (" greets " ++ args), by
          rw [h1, String.append_assoc, String.append_assoc]⟩
      · exact ⟨"SIZE " ++ toString cfg.maxSize, by rw [h1]; rfl⟩
    · simp only [if_true]
      intro l hl
      simp [List.dropLast] at hl
      rcases hl with h1 | h1 | h1
      · exact ⟨cfg.hostname ++ (" greets " ++ args), by
          rw [h1, String.append_assoc, String.append_assoc]⟩
      · exact ⟨"SIZE " ++ toString cfg.maxSize, by rw [h1]; rfl⟩
      · exact ⟨"STARTTLS", by rw [h1]; rfl⟩
  · refine ⟨["250-" ++ cfg.hostname ++ " greets " ++ args,
      "250-SIZE " ++ toString cfg.maxSize] ++
      (if cfg.tlsConfigured && !st.tls then ["250-STARTTLS"] else []), ?_⟩
    rw [hid, hlines, List.append_assoc]

/-- C7 witness: the EHLO dispatch, the inert formatting and the line
structure at a concrete configuration with TLS configured and inactive and a
percent-free peer name. -/
theorem claim_C7_ehlo_response_witness :
    dispatchCmd cfgTlsW stW "EHLO" "x.example.org" [] =
      ⟨{stW with
          remoteName := "x.example.org"
          mfrom := ""
          gotFrom := false
          rcpts := none
          buffer := ""},
        [Out.reply (fmtNoOperands
          (makeEHLOResponse cfgTlsW {stW with remoteName := "x.example.org"}))],
        Ctl.cont, []⟩ ∧
    respLines (fmtNoOperands
        (makeEHLOResponse cfgTlsW {stW with remoteName := "x.example.org"})) =
      ["250-" ++ cfgTlsW.hostname ++ " greets " ++ "x.example.org",
        "250-SIZE " ++ toString cfgTlsW.maxSize] ++
        (if cfgTlsW.tlsConfigured && !stW.tls then ["250-STARTTLS"] else []) ++
        ["250 ENHANCEDSTATUSCODES"] :=
  ⟨(claim_C7_ehlo_response cfgTlsW stW "x.example.org" [] (by decide) (by decide)
      (by decide) (by decide) (by decide) (by decide)).1,
    (claim_C7_ehlo_response cfgTlsW stW "x.example.org" [] (by decide) (by decide)
      (by decide) (by decide) (by decide) (by decide)).2.2.1⟩

end Smtpd
